import Mathlib

/-!
Verification development for the NOSTR-Dojo relay credential subsystem.

The definitions below are a shallow embedding of the TypeScript sources:
  relay/src/types.ts      (event model, kind constants, rows)
  relay/src/crypto.ts     (tag utilities, composite-address parsing,
                           structural event validation)
  relay/src/database.ts   (EventStore: saveEvent, indexCredential,
                           cacheSchema, processRevocation, processRenewal,
                           queryEvents, getCredential, getSchema)
  relay/src/credentials.ts (CredentialVerifier: verify, verifyChain)

Modelling conventions:
  JavaScript numbers that may be NaN are modelled as `Option Int`
  (`none` = NaN); JS comparisons on them return false when either side
  is NaN.  `parseInt(s, 10)` is modelled by `jsParseInt`.  SQL NULL
  columns are `Option` fields.  The SQLite tables are modelled as Lean
  lists; `INSERT OR REPLACE` removes the row with the same key first,
  `INSERT OR IGNORE` keeps the table unchanged when the key exists.
  The two cryptographic primitives (event-id hashing and Schnorr
  signature verification) are external to the validator logic and are
  passed as explicit function parameters.
-/

/-- JavaScript number that may be NaN: `none` models NaN. -/
abbrev JsNum := Option Int

/-- JS `a > b`: false when either side is NaN. -/
def jsGtB (a b : JsNum) : Bool :=
  match a, b with
  | some x, some y => x > y
  | _, _ => false

/-- JS `a < b`: false when either side is NaN. -/
def jsLtB (a b : JsNum) : Bool :=
  match a, b with
  | some x, some y => x < y
  | _, _ => false

/-- JS `a <= b`: false when either side is NaN. -/
def jsLeB (a b : JsNum) : Bool :=
  match a, b with
  | some x, some y => x ≤ y
  | _, _ => false

/-- Whitespace characters skipped by JS `parseInt`. -/
def jsIsSpace (c : Char) : Bool :=
  c.toNat = 32 || c.toNat = 9 || c.toNat = 10 || c.toNat = 13 ||
  c.toNat = 11 || c.toNat = 12

/-- Numeric value of a list of decimal digit characters. -/
def jsDigitsVal (cs : List Char) : Nat :=
  cs.foldl (fun acc c => acc * 10 + (c.toNat - 48)) 0

/-- Longest leading run of decimal digits, `none` when empty. -/
def jsDigitsPrefixVal (cs : List Char) : Option Nat :=
  let ds := cs.takeWhile Char.isDigit
  if ds.isEmpty then none else some (jsDigitsVal ds)

/-- Model of JavaScript `parseInt(s, 10)`: skip leading whitespace, an
optional sign, then the longest run of decimal digits; `none` models the
NaN result when no digit is found. -/
def jsParseInt (s : String) : Option Int :=
  let cs := s.toList.dropWhile jsIsSpace
  match cs with
  | '-' :: rest => (jsDigitsPrefixVal rest).map (fun n => -(n : Int))
  | '+' :: rest => (jsDigitsPrefixVal rest).map (fun n => (n : Int))
  | _ => (jsDigitsPrefixVal cs).map (fun n => (n : Int))

/-- JS truthiness of a `string | undefined` value: `undefined` and the
empty string are falsy. -/
def truthyS : Option String → Bool
  | none => false
  | some s => s ≠ ""

example : jsParseInt "1000" = some 1000 := by decide
example : jsParseInt "0" = some 0 := by decide
example : jsParseInt "abc" = none := by decide
example : jsParseInt "-5" = some (-5) := by decide
example : jsParseInt " 12x" = some 12 := by decide

/-! ## Event model and kind constants (relay/src/types.ts) -/

/-- NostrEvent record from types.ts.  `created_at` and `kind` are JS
numbers; the events handled by the store have integral values. -/
structure NostrEvent where
  id : String
  pubkey : String
  created_at : Int
  kind : Int
  tags : List (List String)
  content : String
  sig : String
deriving Repr, DecidableEq

def EVENT_KINDS.CREDENTIAL_SCHEMA : Int := 30100

def EVENT_KINDS.CREDENTIAL_GRANT : Int := 30101

def EVENT_KINDS.CREDENTIAL_REVOCATION : Int := 30102

def EVENT_KINDS.CREDENTIAL_RENEWAL : Int := 30103

/-- Class definition inside a credential schema document (types.ts
`CredentialClass`); `expiry_max_days`/`expiry_renewable` flatten the
nested `expiry` object. -/
structure CredentialClass where
  name : String
  scope : List String
  issued_by : List String
  expiry_max_days : Option Int
  expiry_renewable : Bool
  cascade_revoke : Bool
deriving Repr, DecidableEq

/-- Schema document (types.ts `CredentialSchema`); the JS record
`classes` is modelled as an association list. -/
structure CredentialSchema where
  classes : List (String × CredentialClass)
deriving Repr, DecidableEq

/-- Lookup `schema.classes[classId]`. -/
def classLookup (s : CredentialSchema) (classId : String) : Option CredentialClass :=
  (s.classes.find? (fun p => p.1 = classId)).map (fun p => p.2)

/-- Row of the `credentials` table (types.ts `CredentialRow`).  The
SQLite integer `revoked` is modelled as Bool. -/
structure CredentialRow where
  event_id : String
  schema_ref : String
  class_id : String
  recipient : String
  issuer : String
  issued_at : Int
  expires_at : Option Int
  chain_ref : Option String
  revoked : Bool
  revoked_at : Option Int
  revoke_reason : Option String
deriving Repr, DecidableEq

/-- Row of the `schemas` cache table. -/
structure SchemaRow where
  pubkey : String
  d_tag : String
  content : String
  created_at : Int
deriving Repr, DecidableEq

/-- Verification outcome (types.ts `VerificationResult`). -/
inductive VerificationResult where
  | VALID (chain_depth : Nat)
  | INVALID (reason : String)
  | EXPIRED (expired_at : Int)
  | REVOKED (revoked_at : Int) (reason : String)
deriving Repr, DecidableEq

/-! ## Tag utilities and composite addresses (relay/src/crypto.ts) -/

/-- crypto.ts `getTagValue`: first tag whose name matches, second
element (`undefined` when the tag has no value). -/
def getTagValue (e : NostrEvent) (tagName : String) : Option String :=
  (e.tags.find? (fun t => t.head? = some tagName)).bind (fun t => t[1]?)

/-- Parsed composite address `kind:pubkey:d-tag`. -/
structure ATagInfo where
  kind : Int
  pubkey : String
  dTag : String
deriving Repr, DecidableEq

/-- Split a character list at every occurrence of `sep`, keeping empty
segments, like JS `String.prototype.split`. -/
def splitCharAux (sep : Char) : List Char → List Char → List (List Char)
  | [], acc => [acc.reverse]
  | x :: xs, acc =>
    if x = sep then acc.reverse :: splitCharAux sep xs []
    else splitCharAux sep xs (x :: acc)

/-- JS `s.split(sep)` for a single-character separator. -/
def jsSplit (sep : Char) (s : String) : List String :=
  (splitCharAux sep s.data []).map (fun l => String.mk l)

/-- JS `parts.join(sep)` for the colon separator. -/
def joinColon : List String → String
  | [] => ""
  | [x] => x
  | x :: y :: xs => x ++ ":" ++ joinColon (y :: xs)

/-- crypto.ts `parseATag`: split on colons, parse the kind, require a
64-character pubkey, rejoin the tail as the d-tag. -/
def parseATag (aTag : String) : Option ATagInfo :=
  let parts := jsSplit ':' aTag
  if parts.length < 3 then none
  else
    match jsParseInt (parts.headD "") with
    | none => none
    | some kind =>
      let pubkey := (parts[1]?).getD ""
      if pubkey.length ≠ 64 then none
      else some ⟨kind, pubkey, joinColon (parts.drop 2)⟩

/-- Numeric expiry computed from an `expires` tag value, the pattern
`expiresStr === %perpetual% ? null : parseInt(expiresStr ?? %0%, 10) || null`
shared by credentials.ts lines 35 and 165 and database.ts line 154: the
literal `perpetual`, a missing tag, NaN, and 0 all yield null. -/
def parseExpiresOpt (expiresStr : Option String) : Option Int :=
  if expiresStr = some "perpetual" then none
  else
    match jsParseInt (expiresStr.getD "0") with
    | none => none
    | some n => if n = 0 then none else some n

example : parseExpiresOpt (some "perpetual") = none := by decide
example : parseExpiresOpt (some "0") = none := by decide
example : parseExpiresOpt (some "2000") = some 2000 := by decide
example : parseExpiresOpt none = none := by decide
example : parseATag "30100:short" = none := by decide

def pk64a : String := "aaaaaaaaaaaaaaaaaaaaaaaaaaaaaaaaaaaaaaaaaaaaaaaaaaaaaaaaaaaaaaaa"

example : parseATag ("30101:" ++ pk64a ++ ":x") =
    some ⟨30101, pk64a, "x"⟩ := by decide
example : parseATag ("30101:" ++ pk64a ++ ":a:b") =
    some ⟨30101, pk64a, "a:b"⟩ := by decide
example : parseATag "30100:short" = none := by decide

/-! ## Event store (relay/src/database.ts) -/

/-- State of the SQLite database: the `events`, `credentials` and
`schemas` tables.  The projected columns `d_tag`, `a_tag` and
`expires_at` of `events` are pure functions of the stored event and are
recomputed on demand instead of being stored. -/
structure StoreState where
  events : List NostrEvent
  credentials : List CredentialRow
  schemas : List (String × SchemaRow)
deriving Repr, DecidableEq

def StoreState.init : StoreState := ⟨[], [], []⟩

/-- database.ts `isReplaceable`. -/
def isReplaceable (kind : Int) : Bool :=
  kind = 0 || kind = 3 || (10000 ≤ kind && kind < 20000)

/-- database.ts `isParameterizedReplaceable`. -/
def isParameterizedReplaceable (kind : Int) : Bool :=
  30000 ≤ kind && kind < 40000

/-- The projected `d_tag` column. -/
def dTagOf (e : NostrEvent) : Option String := getTagValue e "d"

/-- The projected `expires_at` column of `events`: the `expiration` tag
when truthy, parsed with `parseInt` (NaN is stored as NULL). -/
def expiresAtOf (e : NostrEvent) : Option Int :=
  match getTagValue e "expiration" with
  | none => none
  | some s => if s = "" then none else jsParseInt s

/-- Lexicographic comparison of character lists by codepoint. -/
def charListLt : List Char → List Char → Bool
  | _, [] => false
  | [], _ :: _ => true
  | a :: as, b :: bs =>
    if a.toNat < b.toNat then true
    else if b.toNat < a.toNat then false
    else charListLt as bs

/-- SQLite BINARY comparison of TEXT ids (UTF-8 byte order coincides
with codepoint order). -/
def strLtB (a b : String) : Bool := charListLt a.data b.data

/-- The `(created_at < ? OR (created_at = ? AND id < ?))` condition in
the replaceable-event DELETE statements. -/
def pairLtB (x e : NostrEvent) : Bool :=
  x.created_at < e.created_at ||
    (x.created_at = e.created_at && strLtB x.id e.id)

/-- database.ts `indexCredential`: extract the grant tags; bail out when
a required tag is falsy; otherwise INSERT OR REPLACE the credential row
with `revoked = 0`.  When the `issued` tag does not parse (NaN violates
the NOT NULL integer column) the insert fails and the table is kept. -/
def indexCredential (e : NostrEvent) (st : StoreState) : StoreState :=
  let schemaRef := getTagValue e "a"
  let classId := getTagValue e "class"
  let recipient := getTagValue e "p"
  let issuedAt := getTagValue e "issued"
  let expiresAt := getTagValue e "expires"
  let chainRef := getTagValue e "chain"
  if !(truthyS schemaRef) || !(truthyS classId) || !(truthyS recipient) ||
      !(truthyS issuedAt) then st
  else
    match jsParseInt (issuedAt.getD "") with
    | none => st
    | some issuedN =>
      let expires := parseExpiresOpt expiresAt
      let row : CredentialRow :=
        { event_id := e.id
          schema_ref := schemaRef.getD ""
          class_id := classId.getD ""
          recipient := recipient.getD ""
          issuer := e.pubkey
          issued_at := issuedN
          expires_at := expires
          chain_ref := chainRef
          revoked := false
          revoked_at := none
          revoke_reason := none }
      { st with credentials :=
          (st.credentials.filter (fun r => r.event_id ≠ e.id)) ++ [row] }

/-- database.ts `cacheSchema`: key the schema cache by the literal
address `30300:<pubkey>:<d>`. -/
def cacheSchema (e : NostrEvent) (st : StoreState) : StoreState :=
  match getTagValue e "d" with
  | none => st
  | some d =>
    if d = "" then st
    else
      let ref := "30300:" ++ e.pubkey ++ ":" ++ d
      let row : SchemaRow :=
        { pubkey := e.pubkey, d_tag := d, content := e.content,
          created_at := e.created_at }
      { st with schemas :=
          (st.schemas.filter (fun p => p.1 ≠ ref)) ++ [(ref, row)] }

/-- database.ts `processRevocation`: require an `a` tag whose first
colon component is the literal `30301`; mark the credential row whose
`event_id` equals the third component revoked, stamping the revocation
event timestamp and reason. -/
def processRevocation (e : NostrEvent) (st : StoreState) : StoreState :=
  let aTag := getTagValue e "a"
  let reason := (getTagValue e "reason").getD "unspecified"
  if !(truthyS aTag) then st
  else
    let parts := jsSplit ':' (aTag.getD "")
    if parts.length < 3 || (parts.headD "") ≠ "30301" then st
    else
      let credentialId := (parts[2]?).getD ""
      { st with credentials := st.credentials.map (fun r =>
          if r.event_id = credentialId then
            { r with
                revoked := true
                revoked_at := some e.created_at
                revoke_reason := some reason }
          else r) }

/-- database.ts `processRenewal`: require an `a` tag with first
component `30301` and a truthy `expires` tag; set the indexed
`expires_at` of the referenced credential, only while it is not
revoked. -/
def processRenewal (e : NostrEvent) (st : StoreState) : StoreState :=
  let aTag := getTagValue e "a"
  let newExpires := getTagValue e "expires"
  if !(truthyS aTag) || !(truthyS newExpires) then st
  else
    let parts := jsSplit ':' (aTag.getD "")
    if parts.length < 3 || (parts.headD "") ≠ "30301" then st
    else
      let credentialId := (parts[2]?).getD ""
      let expiresAt := jsParseInt (newExpires.getD "")
      { st with credentials := st.credentials.map (fun r =>
          if r.event_id = credentialId && !r.revoked then
            { r with expires_at := expiresAt }
          else r) }

/-- Match condition of the first DELETE statement of saveEvent: same
`(kind, pubkey)` and strictly smaller `(created_at, id)`. -/
def replDeleteCond (e x : NostrEvent) : Bool :=
  x.kind = e.kind && x.pubkey = e.pubkey && pairLtB x e

/-- DELETE of replaceable events (saveEvent, first statement). -/
def replDelete (e : NostrEvent) (evts : List NostrEvent) : List NostrEvent :=
  if isReplaceable e.kind then
    evts.filter (fun x => !(replDeleteCond e x))
  else evts

/-- DELETE of parameterized-replaceable events with the same
`(kind, pubkey, d_tag)` and strictly smaller `(created_at, id)`
(saveEvent, second statement; only when the incoming event has a `d`
tag). -/
def paramDeleteCond (e x : NostrEvent) : Bool :=
  x.kind = e.kind && x.pubkey = e.pubkey &&
    dTagOf x = dTagOf e && pairLtB x e

def paramDelete (e : NostrEvent) (evts : List NostrEvent) : List NostrEvent :=
  if isParameterizedReplaceable e.kind && (dTagOf e).isSome then
    evts.filter (fun x => !(paramDeleteCond e x))
  else evts

/-- INSERT OR IGNORE keyed by the `id` primary key. -/
def insertIgnore (e : NostrEvent) (evts : List NostrEvent) : List NostrEvent :=
  if evts.any (fun x => x.id = e.id) then evts else evts ++ [e]

/-- database.ts `saveEvent`: the two replaceable DELETE statements, the
INSERT OR IGNORE, then the kind-dispatched credential, schema,
revocation and renewal side effects. -/
def saveEvent (st : StoreState) (e : NostrEvent) : StoreState :=
  let st3 :=
    { st with events := insertIgnore e (paramDelete e (replDelete e st.events)) }
  let st4 :=
    if e.kind = EVENT_KINDS.CREDENTIAL_GRANT then indexCredential e st3 else st3
  let st5 :=
    if e.kind = EVENT_KINDS.CREDENTIAL_SCHEMA then cacheSchema e st4 else st4
  let st6 :=
    if e.kind = EVENT_KINDS.CREDENTIAL_REVOCATION then processRevocation e st5 else st5
  if e.kind = EVENT_KINDS.CREDENTIAL_RENEWAL then processRenewal e st6 else st6

/-- database.ts `getCredential`: single row by primary key. -/
def getCredential (st : StoreState) (eventId : String) : Option CredentialRow :=
  st.credentials.find? (fun r => r.event_id = eventId)

/-- database.ts `getSchema`: schema-cache row by address. -/
def getSchemaRow (st : StoreState) (ref : String) : Option SchemaRow :=
  (st.schemas.find? (fun p => p.1 = ref)).map (fun p => p.2)

/-! ## Query (database.ts `queryEvents`)

The filter fields exercised by the credential subsystem are modelled:
`ids`, `authors`, `kinds`, the exact-match columns `#a` and `#d`,
`since`, `until` and `limit`.  A SQL `IN` condition is added only when
the corresponding filter list is non-empty (`filter.xs?.length`). -/

structure EventFilter where
  ids : Option (List String) := none
  authors : Option (List String) := none
  kinds : Option (List Int) := none
  aTags : Option (List String) := none
  dTags : Option (List String) := none
  since : Option Int := none
  untilTime : Option Int := none
  limit : Option Nat := none
deriving Repr

/-- A list-valued filter field constrains only when non-empty. -/
def passList {α : Type} [BEq α] (field : Option (List α)) (value : Option α) : Bool :=
  match field with
  | some (x :: xs) =>
    match value with
    | some v => (x :: xs).contains v
    | none => false
  | _ => true

/-- WHERE clause of `queryEvents`, including the expiration filter
`expires_at IS NULL OR expires_at > now`. -/
def matchesWhere (f : EventFilter) (now : Int) (e : NostrEvent) : Bool :=
  passList f.ids (some e.id) &&
  passList f.authors (some e.pubkey) &&
  passList f.kinds (some e.kind) &&
  passList f.aTags (getTagValue e "a") &&
  passList f.dTags (dTagOf e) &&
  (match f.since with | some s => e.created_at ≥ s | none => true) &&
  (match f.untilTime with | some u => e.created_at ≤ u | none => true) &&
  (match expiresAtOf e with | some x => x > now | none => true)

/-- Insert into a list sorted by `created_at` descending. -/
def insertDesc (e : NostrEvent) : List NostrEvent → List NostrEvent
  | [] => [e]
  | x :: xs =>
    if x.created_at ≥ e.created_at then x :: insertDesc e xs
    else e :: x :: xs

/-- ORDER BY `created_at` DESC (stable for rows in table order). -/
def sortDesc : List NostrEvent → List NostrEvent
  | [] => []
  | x :: xs => insertDesc x (sortDesc xs)

/-- database.ts `queryEvents`: WHERE clause, newest-first order, LIMIT
defaulting to 500.  `now` is the wall clock used by the expiration
filter. -/
def queryEvents (st : StoreState) (f : EventFilter) (now : Int) : List NostrEvent :=
  ((sortDesc (st.events.filter (matchesWhere f now))).take (f.limit.getD 500))

/-! ## Chain verifier (relay/src/credentials.ts, class CredentialVerifier)

The verifier reads the store through exactly three operations; they are
collected in `VStore`.  `getSchema` models the composition of
`EventStore.getSchema` with `JSON.parse` of the cached content (the
private `CredentialVerifier.getSchema` method). -/

structure VStore where
  getCredential : String → Option CredentialRow
  findCredentialEvent : String → String → Option NostrEvent
  getSchema : String → Option CredentialSchema

/-- Result of a verifier run together with two ghost observations: the
number of upstream-grant lookups (`findCredentialEvent` calls) made, and
the walked chain as a list of pairs (upstream grant event, `issued`
value of the downstream credential it was checked against). -/
structure VerifyOut where
  result : VerificationResult
  lookups : Nat
  trace : List (NostrEvent × JsNum)
deriving Repr

/-- One level of credentials.ts `verifyChain`, the body of the source
function with the recursive call abstracted into `recur` (which
receives the upstream pubkey, issued value, class id, issued_by list
and chain reference).  The quote marks that the JS template strings
place around interpolated class ids are elided from the two
interpolated reasons. -/
def verifyChainStep (st : VStore) (issuerPubkey : String)
    (credentialIssuedAt : JsNum) (credentialClassId : String)
    (allowedIssuers : List String) (chainRef : String)
    (schema : CredentialSchema) (rootPubkey : String)
    (depth : Nat)
    (recur : String → JsNum → String → List String → String → VerifyOut) :
    VerifyOut :=
  if depth > 5 then ⟨.INVALID "chain too deep (max 5)", 0, []⟩
  else
      match parseATag chainRef with
      | none => ⟨.INVALID "invalid chain reference", 0, []⟩
      | some chainInfo =>
        if chainInfo.kind ≠ 30301 then ⟨.INVALID "invalid chain reference", 0, []⟩
        else
          match st.findCredentialEvent chainInfo.pubkey chainInfo.dTag with
          | none => ⟨.INVALID "issuer credential not found", 1, []⟩
          | some issuerCredentialEvent =>
            let tr := [(issuerCredentialEvent, credentialIssuedAt)]
            if getTagValue issuerCredentialEvent "p" ≠ some issuerPubkey then
              ⟨.INVALID "chain pubkey mismatch", 1, tr⟩
            else if !(truthyS (getTagValue issuerCredentialEvent "class")) then
              ⟨.INVALID "issuer credential missing class", 1, tr⟩
            else
              let issuerClassId := (getTagValue issuerCredentialEvent "class").getD ""
              if !(allowedIssuers.contains issuerClassId) then
                ⟨.INVALID ("issuer class " ++ issuerClassId ++
                  " not authorized to issue " ++ credentialClassId), 1, tr⟩
              else
                match classLookup schema issuerClassId with
                | none => ⟨.INVALID "issuer class not found in schema", 1, tr⟩
                | some issuerClassDef =>
                  if !(issuerClassDef.scope.contains credentialClassId) then
                    ⟨.INVALID ("issuer class " ++ issuerClassId ++
                      " lacks scope to issue " ++ credentialClassId), 1, tr⟩
                  else if !(truthyS (getTagValue issuerCredentialEvent "issued")) then
                    ⟨.INVALID "issuer credential missing issued timestamp", 1, tr⟩
                  else
                    let issuerIssuedAt :=
                      jsParseInt ((getTagValue issuerCredentialEvent "issued").getD "")
                    let issuerExpiresAt :=
                      parseExpiresOpt (getTagValue issuerCredentialEvent "expires")
                    if jsGtB issuerIssuedAt credentialIssuedAt then
                      ⟨.INVALID "issuer credential issued after downstream credential", 1, tr⟩
                    else if (match issuerExpiresAt with
                        | some x => jsLtB (some x) credentialIssuedAt
                        | none => false) then
                      ⟨.INVALID "issuer credential was expired at issuance time", 1, tr⟩
                    else
                      let issuerCredRow := st.getCredential issuerCredentialEvent.id
                      let cascadeHit :=
                        (match issuerCredRow with
                         | some row =>
                           row.revoked &&
                           (match classLookup schema issuerClassId with
                            | some d2 => d2.cascade_revoke
                            | none => false) &&
                           (match row.revoked_at with
                            | some ra => ra ≠ 0 && jsLeB (some ra) credentialIssuedAt
                            | none => false)
                         | none => false)
                      if cascadeHit then
                        ⟨.INVALID "issuer credential was revoked (cascade)", 1, tr⟩
                      else
                        let issuerChainRef := getTagValue issuerCredentialEvent "chain"
                        if issuerClassDef.issued_by.contains "root" &&
                            issuerCredentialEvent.pubkey = rootPubkey then
                          ⟨.VALID depth, 1, tr⟩
                        else if !(truthyS issuerChainRef) then
                          ⟨.INVALID "broken chain - non-root issuer without chain reference", 1, tr⟩
                        else
                          let sub :=
                            recur issuerCredentialEvent.pubkey
                              issuerIssuedAt issuerClassId issuerClassDef.issued_by
                              (issuerChainRef.getD "")
                          ⟨sub.result, 1 + sub.lookups, tr ++ sub.trace⟩

/-- credentials.ts `verifyChain`.  The recursion of the source is driven
by the `depth` counter alone, whose `depth > 5` guard bounds it; `fuel`
is a structural-recursion bound that is never exhausted when
`fuel ≥ 6 - depth`, and on exhaustion returns the same outcome as the
depth guard. -/
def verifyChainAux (fuel : Nat) (st : VStore) (issuerPubkey : String)
    (credentialIssuedAt : JsNum) (credentialClassId : String)
    (allowedIssuers : List String) (chainRef : String)
    (schema : CredentialSchema) (rootPubkey : String) (now : Int)
    (depth : Nat) : VerifyOut :=
  match fuel with
  | 0 => ⟨.INVALID "chain too deep (max 5)", 0, []⟩
  | fuel + 1 =>
    verifyChainStep st issuerPubkey credentialIssuedAt credentialClassId
      allowedIssuers chainRef schema rootPubkey depth
      (fun ipk2 issued2 class2 issuedBy2 chain2 =>
        verifyChainAux fuel st ipk2 issued2 class2 issuedBy2 chain2
          schema rootPubkey now (depth + 1))

/-- credentials.ts `verify`.  The chain walk starts at depth 1; fuel 6
covers depths 1 through 6, and the depth guard fires at depth 6, so the
fuel is never exhausted. -/
def verifyAux (st : VStore) (credentialEvent : NostrEvent) (now : Int) : VerifyOut :=
  if credentialEvent.kind ≠ EVENT_KINDS.CREDENTIAL_GRANT then
    ⟨.INVALID "not a credential event", 0, []⟩
  else
    let schemaRef := getTagValue credentialEvent "a"
    let classId := getTagValue credentialEvent "class"
    let issuedStr := getTagValue credentialEvent "issued"
    let expiresStr := getTagValue credentialEvent "expires"
    let chainRef := getTagValue credentialEvent "chain"
    if !(truthyS schemaRef) || !(truthyS classId) || !(truthyS issuedStr) then
      ⟨.INVALID "missing required tags", 0, []⟩
    else
      let issuedAt := jsParseInt (issuedStr.getD "")
      let expiresAt := parseExpiresOpt expiresStr
      let credRow := st.getCredential credentialEvent.id
      if (match credRow with | some r => r.revoked | none => false) then
        ⟨.REVOKED ((credRow.bind (fun r => r.revoked_at)).getD now)
          ((credRow.bind (fun r => r.revoke_reason)).getD "unspecified"), 0, []⟩
      else
        let effectiveExpiry :=
          match credRow.bind (fun r => r.expires_at) with
          | some v => some v
          | none => expiresAt
        if jsLtB effectiveExpiry (some now) then
          ⟨.EXPIRED (effectiveExpiry.getD 0), 0, []⟩
        else
          match st.getSchema (schemaRef.getD "") with
          | none => ⟨.INVALID "schema not found", 0, []⟩
          | some schema =>
            match classLookup schema (classId.getD "") with
            | none => ⟨.INVALID "credential class not found in schema", 0, []⟩
            | some classDefinition =>
              match parseATag (schemaRef.getD "") with
              | none => ⟨.INVALID "invalid schema reference", 0, []⟩
              | some schemaInfo =>
                let rootPubkey := schemaInfo.pubkey
                if classDefinition.issued_by.contains "root" &&
                    credentialEvent.pubkey = rootPubkey then
                  ⟨.VALID 0, 0, []⟩
                else if !(truthyS chainRef) then
                  ⟨.INVALID "non-root issuer without chain reference", 0, []⟩
                else
                  verifyChainAux 6 st credentialEvent.pubkey issuedAt
                    (classId.getD "") classDefinition.issued_by
                    (chainRef.getD "") schema rootPubkey now 1

/-- The `VerificationResult` returned by `CredentialVerifier.verify`. -/
def verify (st : VStore) (credentialEvent : NostrEvent) (now : Int) : VerificationResult :=
  (verifyAux st credentialEvent now).result

/-- credentials.ts `findCredentialEvent`: first result of a query for
credential-grant events with the given author and d tag. -/
def findCredentialEvent (st : StoreState) (qnow : Int) (pubkey dTag : String) :
    Option NostrEvent :=
  (queryEvents st
    { kinds := some [EVENT_KINDS.CREDENTIAL_GRANT], authors := some [pubkey],
      dTags := some [dTag], limit := some 1 } qnow).head?

/-- View of a concrete `StoreState` through the verifier interface.
`parse` models `JSON.parse` of cached schema content (returning `none`
on the exceptions the source catches); `qnow` is the wall clock used by
the expiration filter inside `queryEvents`. -/
def storeVStore (st : StoreState) (parse : String → Option CredentialSchema)
    (qnow : Int) : VStore :=
  { getCredential := getCredential st
    findCredentialEvent := findCredentialEvent st qnow
    getSchema := fun ref => (getSchemaRow st ref).bind (fun r => parse r.content) }

/-! ## Structural event validation (relay/src/crypto.ts `validateEvent`)

`validateEvent` receives a decoded JSON object whose fields may have any
runtime shape, so its input is modelled with a JSON-value type.  The two
cryptographic primitives it calls, `computeEventId` (SHA-256 of the
canonical serialization) and `verifySignature` (BIP-340 Schnorr), are
external and are passed as function parameters. -/

inductive JVal where
  | jnull
  | jbool (b : Bool)
  | jnum (n : Int)
  | jstr (s : String)
  | jarr (xs : List JVal)
deriving Repr

/-- JS truthiness of a runtime value (numeric NaN is not representable
here; it is also falsy in JS). -/
def jsTruthy : JVal → Bool
  | .jnull => false
  | .jbool b => b
  | .jnum n => n ≠ 0
  | .jstr s => s ≠ ""
  | .jarr _ => true

/-- JS `typeof v === %string%`. -/
def isStr : JVal → Bool
  | .jstr _ => true
  | _ => false

/-- JS `typeof v === %number%`. -/
def isNum : JVal → Bool
  | .jnum _ => true
  | _ => false

/-- JS `Array.isArray(v)`. -/
def isArr : JVal → Bool
  | .jarr _ => true
  | _ => false

/-- String payload of a JSON value (only used after an `isStr` check). -/
def strVal : JVal → String
  | .jstr s => s
  | _ => ""

/-- Numeric payload of a JSON value. -/
def numVal : JVal → Int
  | .jnum n => n
  | _ => 0

/-- An inbound event as decoded from the wire, before validation. -/
structure RawEvent where
  id : JVal
  pubkey : JVal
  created_at : JVal
  kind : JVal
  tags : JVal
  content : JVal
  sig : JVal
deriving Repr

/-- Outcome of `validateEvent` (`{ valid: boolean; reason?: string }`). -/
inductive ValidateRes where
  | valid
  | invalid (reason : String)
deriving Repr, DecidableEq

/-- crypto.ts `validateEvent`: the sequence of structural checks, then
the id recomputation and the signature check through the two primitive
parameters `computeId` and `verifySig`. -/
def validateEvent (computeId : RawEvent → String) (verifySig : RawEvent → Bool)
    (e : RawEvent) : ValidateRes :=
  if !(jsTruthy e.id) || !(isStr e.id) || (strVal e.id).length ≠ 64 then
    .invalid "invalid id"
  else if !(jsTruthy e.pubkey) || !(isStr e.pubkey) || (strVal e.pubkey).length ≠ 64 then
    .invalid "invalid pubkey"
  else if !(jsTruthy e.sig) || !(isStr e.sig) || (strVal e.sig).length ≠ 128 then
    .invalid "invalid sig"
  else if !(isNum e.created_at) || numVal e.created_at < 0 then
    .invalid "invalid created_at"
  else if !(isNum e.kind) || numVal e.kind < 0 then
    .invalid "invalid kind"
  else if !(isArr e.tags) then
    .invalid "invalid tags"
  else if !(isStr e.content) then
    .invalid "invalid content"
  else if computeId e ≠ strVal e.id then
    .invalid "id mismatch"
  else if !(verifySig e) then
    .invalid "invalid signature"
  else
    .valid

/-! ## Concrete inputs used by the closed evaluations -/

def pk64b : String := "bbbbbbbbbbbbbbbbbbbbbbbbbbbbbbbbbbbbbbbbbbbbbbbbbbbbbbbbbbbbbbbb"

def pk64c : String := "cccccccccccccccccccccccccccccccccccccccccccccccccccccccccccccccc"

def pk64d : String := "dddddddddddddddddddddddddddddddddddddddddddddddddddddddddddddddd"

/-- A verifier store with no credentials, no events and no schemas. -/
def emptyVStore : VStore :=
  { getCredential := fun _ => none
    findCredentialEvent := fun _ _ => none
    getSchema := fun _ => none }

/-- Composite address of the sample schema, authored by `pk64a`. -/
def srefA : String := "30300:" ++ pk64a ++ ":s1"

/-- A schema-definition event as admitted by the relay: its kind is the
configured `EVENT_KINDS.CREDENTIAL_SCHEMA`. -/
def schemaEventA : NostrEvent :=
  { id := "s1ev", pubkey := pk64a, created_at := 1, kind := 30100,
    tags := [["d", "s1"], ["name", "s1"]], content := "SCHEMA-DOC", sig := "" }

/-- A credential-grant event of the configured grant kind, issued by
`pk64b` to `pk64c` under the sample schema, class `c`, issued 1000,
expires 2000. -/
def grantG : NostrEvent :=
  { id := "g1", pubkey := pk64b, created_at := 1000, kind := 30101,
    tags := [["d", "d1"], ["p", pk64c], ["a", srefA], ["class", "c"],
             ["issued", "1000"], ["expires", "2000"]],
    content := "", sig := "" }

/-- A revocation of `grantG` authored by `pk64d`, a key that is neither
the issuer of the grant, nor on its (empty) chain, nor the schema
root. -/
def revStranger : NostrEvent :=
  { id := "r1", pubkey := pk64d, created_at := 1500, kind := 30102,
    tags := [["a", "30301:" ++ pk64b ++ ":g1"], ["reason", "misconduct"]],
    content := "", sig := "" }

def stG : StoreState := saveEvent StoreState.init grantG

def stGR : StoreState := saveEvent stG revStranger

def stGRG : StoreState := saveEvent stGR grantG

example : (getCredential stG "g1").map CredentialRow.revoked = some false := by decide
example : (getCredential stGR "g1").map CredentialRow.revoked = some true := by decide

/-- Class `c` of the sample schema: root-issued, terminal, 30-day
window, not renewable, no cascade. -/
def classC : CredentialClass :=
  { name := "c", scope := [], issued_by := ["root"],
    expiry_max_days := some 30, expiry_renewable := false,
    cascade_revoke := false }

def schemaValA : CredentialSchema := ⟨[("c", classC)]⟩

/-- Model of `JSON.parse` for the concrete runs: maps the cached sample
document to its parsed value. -/
def parseA : String → Option CredentialSchema :=
  fun c => if c = "SCHEMA-DOC" then some schemaValA else none

/-- Chain reference whose kind component is the configured
credential-grant kind 30101. -/
def chainRefOldKind : String := "30101:" ++ pk64a ++ ":x"

/-- Chain reference carrying the relocated kind 30301 instead. -/
def chainRefNewKind : String := "30301:" ++ pk64a ++ ":x"

/-- C1.  The chain walk rejects a chain reference whose kind component
IS the configured credential-grant kind `EVENT_KINDS.CREDENTIAL_GRANT`
(30101), because `verifyChain` compares the kind against the literal
30301; a reference carrying 30301, which differs from
`EVENT_KINDS.CREDENTIAL_GRANT`, passes the step-(b) check and proceeds
to the upstream lookup. -/
theorem C1_chain_ref_kind_mismatch :
    (parseATag chainRefOldKind).map ATagInfo.kind = some EVENT_KINDS.CREDENTIAL_GRANT ∧
    (verifyChainAux 6 emptyVStore pk64b (some 1000) "c" ["b"] chainRefOldKind
        schemaValA pk64a 2000 1).result = .INVALID "invalid chain reference" ∧
    (parseATag chainRefNewKind).map ATagInfo.kind = some 30301 ∧
    (30301 : Int) ≠ EVENT_KINDS.CREDENTIAL_GRANT ∧
    (verifyChainAux 6 emptyVStore pk64b (some 1000) "c" ["b"] chainRefNewKind
        schemaValA pk64a 2000 1).result = .INVALID "issuer credential not found" := by
  decide

/-- C2.  A schema-definition event admitted with the configured kind
`EVENT_KINDS.CREDENTIAL_SCHEMA` (30100) is cached by `cacheSchema`
under the literal address prefix `30300:`, so the address computed from
the configured kind resolves to nothing. -/
theorem C2_schema_cache_address_mismatch :
    schemaEventA.kind = EVENT_KINDS.CREDENTIAL_SCHEMA ∧
    getSchemaRow (saveEvent StoreState.init schemaEventA)
      ("30100:" ++ pk64a ++ ":s1") = none ∧
    (getSchemaRow (saveEvent StoreState.init schemaEventA)
      ("30300:" ++ pk64a ++ ":s1")).map SchemaRow.content = some "SCHEMA-DOC" := by
  decide

/-- C3.  Saving the grant, then a revocation, sets the revoked flag;
re-submitting the very same already-stored grant event runs
`indexCredential` again, whose INSERT OR REPLACE resets `revoked` to 0,
clearing the flag that the claim says is never cleared. -/
theorem C3_revocation_cleared_by_resubmission :
    (getCredential stGR "g1").map CredentialRow.revoked = some true ∧
    (getCredential stGRG "g1").map CredentialRow.revoked = some false ∧
    (getCredential stGRG "g1").map CredentialRow.revoked_at = some none := by
  decide

/-- C7.  A revocation authored by `pk64d`, which is neither the
original issuer `pk64b`, nor an upstream issuer (the grant carries no
chain), nor the schema root `pk64a`, still marks the grant revoked, and
`verify` reports REVOKED on its basis. -/
theorem C7_unauthorized_revocation_effective :
    revStranger.pubkey ≠ grantG.pubkey ∧
    revStranger.pubkey ≠ pk64a ∧
    getTagValue grantG "chain" = none ∧
    verify (storeVStore stGR (fun _ => none) 0) grantG 1600 =
      .REVOKED 1500 "misconduct" := by
  decide

/-- A root-issued grant of the non-renewable class `c`, expiring at
2000. -/
def grantG8 : NostrEvent :=
  { id := "g8", pubkey := pk64a, created_at := 1000, kind := 30101,
    tags := [["d", "d8"], ["p", pk64b], ["a", srefA], ["class", "c"],
             ["issued", "1000"], ["expires", "2000"]],
    content := "", sig := "" }

/-- A renewal extending `grantG8` to 5000. -/
def renewalN8 : NostrEvent :=
  { id := "n8", pubkey := pk64a, created_at := 1600, kind := 30103,
    tags := [["a", "30301:" ++ pk64a ++ ":g8"], ["expires", "5000"]],
    content := "", sig := "" }

def st8 : StoreState :=
  saveEvent (saveEvent (saveEvent StoreState.init schemaEventA) grantG8) renewalN8

/-- C8.  The schema marks class `c` non-renewable, yet the renewal
updates the indexed expiry from 2000 to 5000, and verification at time
3000 (after the original expiry) uses the renewed value and returns
VALID instead of EXPIRED: neither the store nor the verifier consults
`expiry.renewable`. -/
theorem C8_renewal_applied_despite_nonrenewable :
    classC.expiry_renewable = false ∧
    parseExpiresOpt (getTagValue grantG8 "expires") = some 2000 ∧
    (getCredential st8 "g8").map CredentialRow.expires_at = some (some 5000) ∧
    verify (storeVStore st8 parseA 0) grantG8 3000 = .VALID 0 := by
  decide

/-! ## Replaceable-event semantics (claim C4) -/

/-- Fold a sequence of inbound events into the store. -/
def saveAll (evs : List NostrEvent) : StoreState :=
  evs.foldl saveEvent StoreState.init

/-- The replacement key of the claim: same kind and author, and for
parameterized-replaceable kinds also the same `d` tag. -/
def sameKeyC (f e : NostrEvent) : Prop :=
  f.kind = e.kind ∧ f.pubkey = e.pubkey ∧
    (isReplaceable e.kind = true ∨ dTagOf f = dTagOf e)

/-- Ids are pairwise distinct. -/
def idsDistinct (l : List NostrEvent) : Prop :=
  l.Pairwise (fun a b => a.id ≠ b.id)

theorem indexCredential_events (e : NostrEvent) (st : StoreState) :
    (indexCredential e st).events = st.events := by
  unfold indexCredential
  dsimp only
  split
  · rfl
  · split
    · rfl
    · rfl

theorem cacheSchema_events (e : NostrEvent) (st : StoreState) :
    (cacheSchema e st).events = st.events := by
  unfold cacheSchema
  dsimp only
  split
  · rfl
  · split
    · rfl
    · rfl

theorem processRevocation_events (e : NostrEvent) (st : StoreState) :
    (processRevocation e st).events = st.events := by
  unfold processRevocation
  dsimp only
  split
  · rfl
  · split
    · rfl
    · rfl

theorem processRenewal_events (e : NostrEvent) (st : StoreState) :
    (processRenewal e st).events = st.events := by
  unfold processRenewal
  dsimp only
  split
  · rfl
  · split
    · rfl
    · rfl

theorem saveEvent_events (st : StoreState) (e : NostrEvent) :
    (saveEvent st e).events =
      insertIgnore e (paramDelete e (replDelete e st.events)) := by
  unfold saveEvent
  split <;> split <;> split <;> split <;>
    simp only [processRenewal_events, processRevocation_events,
      cacheSchema_events, indexCredential_events]

theorem charListLt_irrefl (l : List Char) : charListLt l l = false := by
  induction l with
  | nil => rfl
  | cons a as ih =>
    simp [charListLt, ih]

theorem charListLt_asymm (a b : List Char) (hab : charListLt a b = true)
    (hba : charListLt b a = true) : False := by
  induction a generalizing b with
  | nil =>
    cases b with
    | nil => simp [charListLt] at hab
    | cons y ys => simp [charListLt] at hba
  | cons x xs ih =>
    cases b with
    | nil => simp [charListLt] at hab
    | cons y ys =>
      simp only [charListLt] at hab hba
      by_cases h1 : x.toNat < y.toNat
      · have h2 : ¬(y.toNat < x.toNat) := by omega
        simp [h1, h2] at hba
      · by_cases h2 : y.toNat < x.toNat
        · simp [h1, h2] at hab
        · simp [h1, h2] at hab hba
          exact ih ys hab hba

theorem pairLtB_irrefl (x : NostrEvent) : pairLtB x x = false := by
  simp [pairLtB, strLtB, charListLt_irrefl]

theorem pairLtB_asymm (x y : NostrEvent) (hxy : pairLtB x y = true)
    (hyx : pairLtB y x = true) : False := by
  simp only [pairLtB, strLtB, Bool.or_eq_true, Bool.and_eq_true,
    decide_eq_true_eq] at hxy hyx
  rcases hxy with h1 | ⟨h1, h2⟩ <;> rcases hyx with h3 | ⟨h3, h4⟩
  · omega
  · omega
  · omega
  · exact charListLt_asymm _ _ h2 h4

theorem mem_replDelete (e x : NostrEvent) (l : List NostrEvent)
    (hx : x ∈ replDelete e l) : x ∈ l := by
  unfold replDelete at hx
  split at hx
  · exact List.mem_of_mem_filter hx
  · exact hx

theorem mem_paramDelete (e x : NostrEvent) (l : List NostrEvent)
    (hx : x ∈ paramDelete e l) : x ∈ l := by
  unfold paramDelete at hx
  split at hx
  · exact List.mem_of_mem_filter hx
  · exact hx

theorem mem_insertIgnore (e x : NostrEvent) (l : List NostrEvent)
    (hx : x ∈ insertIgnore e l) : x ∈ l ∨ x = e := by
  unfold insertIgnore at hx
  split at hx
  · exact Or.inl hx
  · rcases List.mem_append.mp hx with h | h
    · exact Or.inl h
    · simp at h
      exact Or.inr h

theorem mem_insertIgnore_of_mem (e x : NostrEvent) (l : List NostrEvent)
    (hx : x ∈ l) : x ∈ insertIgnore e l := by
  unfold insertIgnore
  split
  · exact hx
  · exact List.mem_append.mpr (Or.inl hx)

theorem mem_saveEvent (st : StoreState) (f x : NostrEvent)
    (hx : x ∈ (saveEvent st f).events) : x ∈ st.events ∨ x = f := by
  rw [saveEvent_events] at hx
  rcases mem_insertIgnore f x _ hx with h | h
  · exact Or.inl (mem_replDelete f x _ (mem_paramDelete f x _ h))
  · exact Or.inr h

theorem replDeleteCond_eq_true (e x : NostrEvent) :
    replDeleteCond e x = true ↔
      (x.kind = e.kind ∧ x.pubkey = e.pubkey ∧ pairLtB x e = true) := by
  simp [replDeleteCond, and_assoc]

theorem paramDeleteCond_eq_true (e x : NostrEvent) :
    paramDeleteCond e x = true ↔
      (x.kind = e.kind ∧ x.pubkey = e.pubkey ∧ dTagOf x = dTagOf e ∧
        pairLtB x e = true) := by
  simp [paramDeleteCond, and_assoc]

/-- An event already in the table survives a save that neither
replaceable DELETE matches. -/
theorem saveEvent_keeps (st : StoreState) (f x : NostrEvent)
    (hx : x ∈ st.events)
    (h1 : ¬(isReplaceable f.kind = true ∧ x.kind = f.kind ∧
      x.pubkey = f.pubkey ∧ pairLtB x f = true))
    (h2 : ¬(isParameterizedReplaceable f.kind = true ∧ (dTagOf f).isSome = true ∧
      x.kind = f.kind ∧ x.pubkey = f.pubkey ∧ dTagOf x = dTagOf f ∧
      pairLtB x f = true)) :
    x ∈ (saveEvent st f).events := by
  rw [saveEvent_events]
  apply mem_insertIgnore_of_mem
  have hx1 : x ∈ replDelete f st.events := by
    unfold replDelete
    split
    · next hrep =>
      apply List.mem_filter.mpr
      refine ⟨hx, ?_⟩
      have hcF : replDeleteCond f x = false := by
        cases hc : replDeleteCond f x
        · rfl
        · have hparts := (replDeleteCond_eq_true f x).mp hc
          exact (h1 ⟨hrep, hparts.1, hparts.2.1, hparts.2.2⟩).elim
      simp [hcF]
    · exact hx
  unfold paramDelete
  split
  · next hpar =>
    apply List.mem_filter.mpr
    refine ⟨hx1, ?_⟩
    have hcF : paramDeleteCond f x = false := by
      cases hc : paramDeleteCond f x
      · rfl
      · have hparts := (paramDeleteCond_eq_true f x).mp hc
        have hpar2 : isParameterizedReplaceable f.kind = true ∧
            (dTagOf f).isSome = true := by simpa using hpar
        exact (h2 ⟨hpar2.1, hpar2.2, hparts.1, hparts.2.1, hparts.2.2.1,
          hparts.2.2.2⟩).elim
    simp [hcF]
  · exact hx1

theorem idsDistinct_replDelete (e : NostrEvent) (l : List NostrEvent)
    (h : idsDistinct l) : idsDistinct (replDelete e l) := by
  unfold replDelete
  split
  · exact List.Pairwise.sublist (List.filter_sublist l) h
  · exact h

theorem idsDistinct_paramDelete (e : NostrEvent) (l : List NostrEvent)
    (h : idsDistinct l) : idsDistinct (paramDelete e l) := by
  unfold paramDelete
  split
  · exact List.Pairwise.sublist (List.filter_sublist l) h
  · exact h

theorem idsDistinct_insertIgnore (e : NostrEvent) (l : List NostrEvent)
    (h : idsDistinct l) : idsDistinct (insertIgnore e l) := by
  unfold insertIgnore
  split
  · exact h
  · next hany =>
    apply List.pairwise_append.mpr
    refine ⟨h, List.pairwise_singleton _ _, ?_⟩
    intro a ha b hb
    simp only [List.mem_singleton] at hb
    intro heq
    have haid : a.id = e.id := hb ▸ heq
    exact hany (List.any_eq_true.mpr ⟨a, ha, by simpa using haid⟩)

theorem saveEvent_idsDistinct (st : StoreState) (f : NostrEvent)
    (h : idsDistinct st.events) : idsDistinct (saveEvent st f).events := by
  rw [saveEvent_events]
  exact idsDistinct_insertIgnore _ _
    (idsDistinct_paramDelete _ _ (idsDistinct_replDelete _ _ h))

theorem foldl_saveEvent_idsDistinct (l : List NostrEvent) :
    ∀ st : StoreState, idsDistinct st.events →
      idsDistinct ((l.foldl saveEvent st).events) := by
  induction l with
  | nil => intro st h; exact h
  | cons f t ih =>
    intro st h
    exact ih (saveEvent st f) (saveEvent_idsDistinct st f h)

theorem foldl_saveEvent_mem (l : List NostrEvent) :
    ∀ (st : StoreState) (x : NostrEvent),
      x ∈ (l.foldl saveEvent st).events → x ∈ st.events ∨ x ∈ l := by
  induction l with
  | nil => intro st x hx; exact Or.inl hx
  | cons f t ih =>
    intro st x hx
    rcases ih (saveEvent st f) x hx with h | h
    · rcases mem_saveEvent st f x h with h2 | h2
      · exact Or.inl h2
      · exact Or.inr (by simp [h2])
    · exact Or.inr (List.mem_cons_of_mem f h)

/-- The incoming event is inserted when no stored event carries its
id. -/
theorem saveEvent_self_mem (st : StoreState) (e : NostrEvent)
    (h : ∀ x ∈ st.events, x.id ≠ e.id) : e ∈ (saveEvent st e).events := by
  rw [saveEvent_events]
  unfold insertIgnore
  split
  · next hany =>
    obtain ⟨x, hx, hid⟩ := List.any_eq_true.mp hany
    have hxst : x ∈ st.events := mem_replDelete e x _ (mem_paramDelete e x _ hx)
    exact absurd (by simpa using hid) (h x hxst)
  · exact List.mem_append.mpr (Or.inr (by simp))

/-- The greatest same-key event survives a fold over events that never
out-replace it. -/
theorem foldl_saveEvent_keeps (e : NostrEvent) (l : List NostrEvent) :
    ∀ st : StoreState, e ∈ st.events →
      (∀ f ∈ l, f ≠ e → sameKeyC f e → pairLtB f e = true) →
      e ∈ ((l.foldl saveEvent st).events) := by
  induction l with
  | nil => intro st he _; exact he
  | cons f t ih =>
    intro st he hmax
    apply ih (saveEvent st f)
    · apply saveEvent_keeps st f e he
      · rintro ⟨hrep, hk, hp, hlt⟩
        have hne : f ≠ e := by
          intro heq
          subst heq
          rw [pairLtB_irrefl] at hlt
          exact Bool.false_ne_true hlt
        have hkey : sameKeyC f e := ⟨hk.symm, hp.symm, Or.inl (hk ▸ hrep)⟩
        exact pairLtB_asymm e f hlt (hmax f (by simp) hne hkey)
      · rintro ⟨hpar, hds, hk, hp, hd, hlt⟩
        have hne : f ≠ e := by
          intro heq
          subst heq
          rw [pairLtB_irrefl] at hlt
          exact Bool.false_ne_true hlt
        have hkey : sameKeyC f e := ⟨hk.symm, hp.symm, Or.inr hd.symm⟩
        exact pairLtB_asymm e f hlt (hmax f (by simp) hne hkey)
    · intro g hg hne hkey
      exact hmax g (List.mem_cons_of_mem f hg) hne hkey

theorem filter_single (e : NostrEvent) (p : NostrEvent → Bool) :
    ∀ l : List NostrEvent, e ∈ l → idsDistinct l → p e = true →
      (∀ x, p x = true → x.id = e.id) → l.filter p = [e] := by
  intro l
  induction l with
  | nil => intro h; exact absurd h (List.not_mem_nil e)
  | cons a t ih =>
    intro hmem hdist hpe hpid
    have hdt := (List.pairwise_cons.mp hdist).2
    have hhead := (List.pairwise_cons.mp hdist).1
    rcases List.mem_cons.mp hmem with rfl | het
    · have hfilt : t.filter p = [] := by
        apply List.filter_eq_nil_iff.mpr
        intro x hx
        intro hpx
        exact hhead x hx (hpid x hpx).symm
      simp [List.filter_cons, hpe, hfilt]
    · have hpa : p a = false := by
        cases hpa : p a
        · rfl
        · exact absurd (hpid a hpa) (hhead e het)
      simp only [List.filter_cons, hpa, Bool.false_eq_true, if_false]
      exact ih het hdt hpe hpid

/-- An id-only query over a table with distinct ids returns exactly the
stored event bearing that id (when it is not expiration-filtered). -/
theorem queryEvents_ids_single (st : StoreState) (e : NostrEvent) (now : Int)
    (hmem : e ∈ st.events) (hdist : idsDistinct st.events)
    (hexp : expiresAtOf e = none) :
    queryEvents st { ids := some [e.id] } now = [e] := by
  unfold queryEvents
  have hfilt : st.events.filter
      (matchesWhere { ids := some [e.id] } now) = [e] := by
    apply filter_single e _ st.events hmem hdist
    · simp [matchesWhere, passList, hexp]
    · intro x hx
      simp only [matchesWhere, passList, Bool.and_eq_true] at hx
      have := hx.1.1.1.1.1.1.1
      simpa using this
  rw [hfilt]
  simp [sortDesc, insertDesc]

/-- Replaceable kind-0 event at time 10. -/
def e4a : NostrEvent :=
  { id := "id-later", pubkey := pk64a, created_at := 10, kind := 0,
    tags := [], content := "", sig := "" }

/-- Same-key event at the earlier time 5, submitted after `e4a`. -/
def e4b : NostrEvent :=
  { id := "id-early", pubkey := pk64a, created_at := 5, kind := 0,
    tags := [], content := "", sig := "" }

/-- C4 counterexample.  Saving a replaceable event and then an older
same-`(kind, author)` event leaves both retrievable: the DELETE only
removes events strictly older than the incoming one, and the incoming
older event is still inserted. -/
theorem C4_two_events_retrievable :
    queryEvents (saveAll [e4a, e4b]) { kinds := some [0], authors := some [pk64a] } 0
      = [e4a, e4b] ∧
    e4a ≠ e4b ∧ e4a.kind = e4b.kind ∧ e4a.pubkey = e4b.pubkey ∧
    isReplaceable e4a.kind = true ∧ pairLtB e4b e4a = true := by
  decide

/-- C4 amended.  After any finite sequence of saves with pairwise
distinct ids, an event `e` that is strictly greatest under
`(created_at, id)` among the events sharing its replacement key is
always retrievable: an id query returns exactly `e`.  (The at-most-one
part of the original claim fails, per the counterexample.) -/
theorem C4_greatest_event_retrievable (evs : List NostrEvent) (e : NostrEvent)
    (hmem : e ∈ evs) (hids : idsDistinct evs)
    (hmax : ∀ f ∈ evs, f ≠ e → sameKeyC f e → pairLtB f e = true)
    (hexp : expiresAtOf e = none) (now : Int) :
    queryEvents (saveAll evs) { ids := some [e.id] } now = [e] := by
  obtain ⟨l1, l2, rfl⟩ := List.append_of_mem hmem
  have hsplit := List.pairwise_append.mp hids
  have hbetween := hsplit.2.2
  have hel2 := (List.pairwise_cons.mp hsplit.2.1).1
  have hfold : saveAll (l1 ++ e :: l2) =
      l2.foldl saveEvent (saveEvent (l1.foldl saveEvent StoreState.init) e) := by
    simp [saveAll, List.foldl_append]
  set stA := l1.foldl saveEvent StoreState.init with hstA
  have hAid : ∀ x ∈ stA.events, x.id ≠ e.id := by
    intro x hx
    rcases foldl_saveEvent_mem l1 StoreState.init x hx with h | h
    · exact absurd h (List.not_mem_nil x)
    · exact hbetween x h e (List.mem_cons_self e l2)
  have hB : e ∈ (saveEvent stA e).events := saveEvent_self_mem stA e hAid
  have hfinal : e ∈ ((l2.foldl saveEvent (saveEvent stA e)).events) := by
    apply foldl_saveEvent_keeps e l2 (saveEvent stA e) hB
    intro f hf hne hkey
    exact hmax f (by simp [hf]) hne hkey
  have hdistF : idsDistinct ((l2.foldl saveEvent (saveEvent stA e)).events) := by
    apply foldl_saveEvent_idsDistinct
    apply saveEvent_idsDistinct
    apply foldl_saveEvent_idsDistinct
    exact List.Pairwise.nil
  rw [hfold]
  exact queryEvents_ids_single _ e now hfinal hdistF hexp

/-- Closed instance for the C4 amended theorem: a single saved event is
its own key maximum and is retrievable by id. -/
theorem C4_greatest_event_retrievable_witness :
    queryEvents (saveAll [e4a]) { ids := some [e4a.id] } 0 = [e4a] := by
  apply C4_greatest_event_retrievable [e4a] e4a (by decide)
  · simp [idsDistinct]
  · intro f hf hne hkey
    simp only [List.mem_singleton] at hf
    exact absurd hf hne
  · decide

/-! ## Chain bound (claim C6) -/

theorem lookups_cons_bound {depth : Nat} (hd : depth ≤ 5) (X : Nat)
    (hx : X ≤ 6 - (depth + 1)) : 1 + X ≤ 6 - depth := by omega

theorem verifyChainStep_lookups (st : VStore) (ipk : String) (ci : JsNum)
    (ccid : String) (ai : List String) (cr : String) (sc : CredentialSchema)
    (rpk : String) (depth : Nat)
    (recur : String → JsNum → String → List String → String → VerifyOut)
    (hrec : ∀ a b c d e, (recur a b c d e).lookups ≤ 6 - (depth + 1)) :
    (verifyChainStep st ipk ci ccid ai cr sc rpk depth recur).lookups ≤
      6 - depth := by
  unfold verifyChainStep
  by_cases hd : depth > 5
  · rw [if_pos hd]
    exact Nat.zero_le _
  rw [if_neg hd]
  have h1 : (1 : Nat) ≤ 6 - depth := by omega
  cases hpa : parseATag cr with
  | none => exact Nat.zero_le _
  | some chainInfo =>
    dsimp only
    by_cases hk : chainInfo.kind ≠ 30301
    · rw [if_pos hk]
      exact Nat.zero_le _
    rw [if_neg hk]
    cases hf : st.findCredentialEvent chainInfo.pubkey chainInfo.dTag with
    | none => exact h1
    | some u =>
      dsimp only
      by_cases hp : getTagValue u "p" ≠ some ipk
      · rw [if_pos hp]
        exact h1
      rw [if_neg hp]
      by_cases hc1 : (!truthyS (getTagValue u "class")) = true
      · rw [if_pos hc1]
        exact h1
      rw [if_neg hc1]
      by_cases hc2 : (!ai.contains ((getTagValue u "class").getD "")) = true
      · rw [if_pos hc2]
        exact h1
      rw [if_neg hc2]
      cases hcd : classLookup sc ((getTagValue u "class").getD "") with
      | none => exact h1
      | some issuerClassDef =>
        dsimp only
        by_cases hs : (!issuerClassDef.scope.contains ccid) = true
        · rw [if_pos hs]
          exact h1
        rw [if_neg hs]
        by_cases hi : (!truthyS (getTagValue u "issued")) = true
        · rw [if_pos hi]
          exact h1
        rw [if_neg hi]
        by_cases hg : jsGtB (jsParseInt ((getTagValue u "issued").getD "")) ci = true
        · rw [if_pos hg]
          exact h1
        rw [if_neg hg]
        by_cases he : (match parseExpiresOpt (getTagValue u "expires") with
            | some x => jsLtB (some x) ci
            | none => false) = true
        · rw [if_pos he]
          exact h1
        rw [if_neg he]
        split
        · exact h1
        · by_cases hroot : (issuerClassDef.issued_by.contains "root" &&
              decide (u.pubkey = rpk)) = true
          · rw [if_pos hroot]
            exact h1
          rw [if_neg hroot]
          by_cases hch : (!truthyS (getTagValue u "chain")) = true
          · rw [if_pos hch]
            exact h1
          rw [if_neg hch]
          exact lookups_cons_bound (by omega) _ (hrec _ _ _ _ _)

/-- The walk started at `depth` performs at most `6 - depth` upstream
lookups, for any fuel. -/
theorem verifyChainAux_lookups (fuel : Nat) :
    ∀ (st : VStore) (ipk : String) (ci : JsNum) (ccid : String)
      (ai : List String) (cr : String) (sc : CredentialSchema)
      (rpk : String) (now : Int) (depth : Nat),
      (verifyChainAux fuel st ipk ci ccid ai cr sc rpk now depth).lookups ≤
        6 - depth := by
  induction fuel with
  | zero =>
    intro st ipk ci ccid ai cr sc rpk now depth
    exact Nat.zero_le _
  | succ n ih =>
    intro st ipk ci ccid ai cr sc rpk now depth
    rw [verifyChainAux]
    exact verifyChainStep_lookups st ipk ci ccid ai cr sc rpk depth _
      (fun a b c d e => ih st a b c d e sc rpk now (depth + 1))

/-- verify performs at most 5 upstream-grant lookups: the walk starts at
depth 1 and every other branch of verify performs none. -/
theorem verifyAux_lookups (st : VStore) (e : NostrEvent) (now : Int) :
    (verifyAux st e now).lookups ≤ 5 := by
  unfold verifyAux
  dsimp only
  repeat' split
  all_goals try exact Nat.zero_le _
  all_goals exact verifyChainAux_lookups 6 st _ _ _ _ _ _ _ _ 1

/-- C6.  For every store and grant, verify performs at most 5
upstream-grant lookups (and, being a total function of its inputs,
always terminates, cycles included); and the chain walk entered at any
depth greater than 5 returns INVALID with the chain-too-deep reason
while performing no lookup at all. -/
theorem C6_chain_bound :
    (∀ (st : VStore) (e : NostrEvent) (now : Int),
      (verifyAux st e now).lookups ≤ 5) ∧
    (∀ (fuel : Nat) (st : VStore) (ipk : String) (ci : JsNum) (ccid : String)
      (ai : List String) (cr : String) (sc : CredentialSchema) (rpk : String)
      (now : Int) (depth : Nat), depth > 5 →
      verifyChainAux fuel st ipk ci ccid ai cr sc rpk now depth =
        ⟨.INVALID "chain too deep (max 5)", 0, []⟩) := by
  constructor
  · exact verifyAux_lookups
  · intro fuel st ipk ci ccid ai cr sc rpk now depth hdepth
    cases fuel with
    | zero => rfl
    | succ n =>
      rw [verifyChainAux]
      unfold verifyChainStep
      rw [if_pos hdepth]

/-- Closed instance of C6: a concrete verify run stays within 5
lookups, and the walk at depth 6 stops with no lookup. -/
theorem C6_chain_bound_witness :
    (verifyAux emptyVStore grantG 0).lookups ≤ 5 ∧
    verifyChainAux 6 emptyVStore pk64b (some 1000) "c" ["b"] chainRefNewKind
      schemaValA pk64a 2000 6 =
      ⟨.INVALID "chain too deep (max 5)", 0, []⟩ :=
  ⟨C6_chain_bound.1 emptyVStore grantG 0,
   C6_chain_bound.2 6 emptyVStore pk64b (some 1000) "c" ["b"] chainRefNewKind
     schemaValA pk64a 2000 6 (by decide)⟩

/-! ## Authority at issuance (claim C5) -/

/-- The issuance-time relation claimed between a walked upstream grant
and the downstream credential it was checked against, restricted to the
values that actually parse as integers: the upstream `issued` does not
exceed the downstream `issued`, and a numeric upstream expiry is not
before the downstream `issued`. -/
def authOkPair (p : NostrEvent × JsNum) : Prop :=
  ∀ iu, jsParseInt ((getTagValue p.1 "issued").getD "") = some iu →
    ∀ ciN : Int, p.2 = some ciN →
      iu ≤ ciN ∧
        ∀ ex, parseExpiresOpt (getTagValue p.1 "expires") = some ex → ciN ≤ ex

theorem verifyChainStep_auth (st : VStore) (ipk : String) (ci : JsNum)
    (ccid : String) (ai : List String) (cr : String) (sc : CredentialSchema)
    (rpk : String) (depth : Nat)
    (recur : String → JsNum → String → List String → String → VerifyOut)
    (hrec : ∀ a b c d e dd, (recur a b c d e).result = .VALID dd →
      ∀ p ∈ (recur a b c d e).trace, authOkPair p) :
    ∀ dd, (verifyChainStep st ipk ci ccid ai cr sc rpk depth recur).result =
        .VALID dd →
      ∀ p ∈ (verifyChainStep st ipk ci ccid ai cr sc rpk depth recur).trace,
        authOkPair p := by
  unfold verifyChainStep
  by_cases hd : depth > 5
  · rw [if_pos hd]
    intro dd hres
    simp at hres
  rw [if_neg hd]
  cases hpa : parseATag cr with
  | none =>
    intro dd hres
    simp at hres
  | some chainInfo =>
    dsimp only
    by_cases hk : chainInfo.kind ≠ 30301
    · rw [if_pos hk]
      intro dd hres
      simp at hres
    rw [if_neg hk]
    cases hf : st.findCredentialEvent chainInfo.pubkey chainInfo.dTag with
    | none =>
      intro dd hres
      simp at hres
    | some u =>
      dsimp only
      by_cases hp : getTagValue u "p" ≠ some ipk
      · rw [if_pos hp]
        intro dd hres
        simp at hres
      rw [if_neg hp]
      by_cases hc1 : (!truthyS (getTagValue u "class")) = true
      · rw [if_pos hc1]
        intro dd hres
        simp at hres
      rw [if_neg hc1]
      by_cases hc2 : (!ai.contains ((getTagValue u "class").getD "")) = true
      · rw [if_pos hc2]
        intro dd hres
        simp at hres
      rw [if_neg hc2]
      cases hcd : classLookup sc ((getTagValue u "class").getD "") with
      | none =>
        intro dd hres
        simp at hres
      | some issuerClassDef =>
        dsimp only
        by_cases hs : (!issuerClassDef.scope.contains ccid) = true
        · rw [if_pos hs]
          intro dd hres
          simp at hres
        rw [if_neg hs]
        by_cases hi : (!truthyS (getTagValue u "issued")) = true
        · rw [if_pos hi]
          intro dd hres
          simp at hres
        rw [if_neg hi]
        by_cases hg : jsGtB (jsParseInt ((getTagValue u "issued").getD "")) ci = true
        · rw [if_pos hg]
          intro dd hres
          simp at hres
        rw [if_neg hg]
        by_cases he : (match parseExpiresOpt (getTagValue u "expires") with
            | some x => jsLtB (some x) ci
            | none => false) = true
        · rw [if_pos he]
          intro dd hres
          simp at hres
        rw [if_neg he]
        have hhead : authOkPair (u, ci) := by
          intro iu hiu ciN hci
          dsimp only at hiu hci
          rw [hiu, hci] at hg
          simp [jsGtB] at hg
          refine ⟨by omega, ?_⟩
          intro ex hex
          rw [hex, hci] at he
          simp [jsLtB] at he
          omega
        split
        · intro dd hres
          simp at hres
        · split
          · intro dd hres p hp
            simp only [List.mem_singleton] at hp
            subst hp
            exact hhead
          · split
            · intro dd hres
              simp at hres
            · intro dd hres p hp
              dsimp only at hres hp
              rcases List.mem_append.mp hp with h | h
              · simp only [List.mem_singleton] at h
                subst h
                exact hhead
              · exact hrec _ _ _ _ _ dd hres p h

theorem verifyChainAux_auth (fuel : Nat) :
    ∀ (st : VStore) (ipk : String) (ci : JsNum) (ccid : String)
      (ai : List String) (cr : String) (sc : CredentialSchema)
      (rpk : String) (now : Int) (depth : Nat) (dd : Nat),
      (verifyChainAux fuel st ipk ci ccid ai cr sc rpk now depth).result =
        .VALID dd →
      ∀ p ∈ (verifyChainAux fuel st ipk ci ccid ai cr sc rpk now depth).trace,
        authOkPair p := by
  induction fuel with
  | zero =>
    intro st ipk ci ccid ai cr sc rpk now depth dd hres
    simp [verifyChainAux] at hres
  | succ n ih =>
    intro st ipk ci ccid ai cr sc rpk now depth dd hres
    rw [verifyChainAux] at hres ⊢
    exact verifyChainStep_auth st ipk ci ccid ai cr sc rpk depth _
      (fun a b c d e => ih st a b c d e sc rpk now (depth + 1)) dd hres

/-- Lifting of the walk property through `verify`: all branches of
verify that do not enter the walk produce an empty trace. -/
theorem verifyAux_auth (st : VStore) (e : NostrEvent) (now : Int) :
    ∀ dd, (verifyAux st e now).result = .VALID dd →
      ∀ p ∈ (verifyAux st e now).trace, authOkPair p := by
  unfold verifyAux
  dsimp only
  repeat' split
  all_goals try (intro dd hres p hp; simp at hp)
  all_goals exact fun dd hres =>
    verifyChainAux_auth 6 st _ _ _ _ _ _ _ _ 1 dd hres

/-- C5 amended.  For a grant verified VALID with chain_depth at least 1,
every upstream grant U on the walked chain, paired with the downstream
issued value it was checked against, satisfies U.issued ≤ child.issued
and (when U.expires is numeric) U.expires ≥ child.issued — whenever the
issued tags themselves parse as integers.  (When a walked issued tag is
NaN the source skips the comparisons, per the counterexample.) -/
theorem C5_authority_at_issuance (st : VStore) (e : NostrEvent) (now : Int)
    (d : Nat) (hvalid : verify st e now = .VALID d) (_hdepth : 1 ≤ d)
    (U : NostrEvent) (ci : JsNum)
    (hmem : (U, ci) ∈ (verifyAux st e now).trace) (iu ciN : Int)
    (hiu : jsParseInt ((getTagValue U "issued").getD "") = some iu)
    (hci : ci = some ciN) :
    iu ≤ ciN ∧
      ∀ ex, parseExpiresOpt (getTagValue U "expires") = some ex → ciN ≤ ex :=
  verifyAux_auth st e now d hvalid (U, ci) hmem iu hiu ciN hci

/-- Sample schema with a delegating class `b` (root-issued, scope `c`)
and a terminal class `c` issued by `b`. -/
def schemaValB : CredentialSchema :=
  ⟨[("c", { name := "c", scope := [], issued_by := ["b"],
            expiry_max_days := none, expiry_renewable := false,
            cascade_revoke := false }),
    ("b", { name := "b", scope := ["c"], issued_by := ["root"],
            expiry_max_days := none, expiry_renewable := true,
            cascade_revoke := false })]⟩

/-- Root-issued upstream grant held by `pk64b`, issued at 500. -/
def upstreamU : NostrEvent :=
  { id := "u1ev", pubkey := pk64a, created_at := 500, kind := 30101,
    tags := [["d", "u1"], ["p", pk64b], ["a", srefA], ["class", "b"],
             ["issued", "500"], ["expires", "perpetual"]],
    content := "", sig := "" }

/-- Downstream grant issued by `pk64b` at 1000 citing `upstreamU`. -/
def childW : NostrEvent :=
  { id := "w1ev", pubkey := pk64b, created_at := 1000, kind := 30101,
    tags := [["d", "w1"], ["p", pk64c], ["a", srefA], ["class", "c"],
             ["issued", "1000"],
             ["chain", "30301:" ++ pk64a ++ ":u1"]],
    content := "", sig := "" }

/-- Verifier store resolving the sample schema and `upstreamU`. -/
def vstoreW : VStore :=
  { getCredential := fun _ => none
    findCredentialEvent := fun pk d =>
      if pk = pk64a && d = "u1" then some upstreamU else none
    getSchema := fun r => if r = srefA then some schemaValB else none }

example : verify vstoreW childW 2000 = .VALID 1 := by decide
example : (verifyAux vstoreW childW 2000).trace = [(upstreamU, some 1000)] := by
  decide

/-- Closed instance of the C5 amended theorem on a depth-1 chain. -/
theorem C5_authority_at_issuance_witness :
    (500 : Int) ≤ 1000 ∧
      ∀ ex, parseExpiresOpt (getTagValue upstreamU "expires") = some ex →
        (1000 : Int) ≤ ex :=
  C5_authority_at_issuance vstoreW childW 2000 1 (by decide) (by decide)
    upstreamU (some 1000) (by decide) 500 1000 (by decide) rfl

/-- Upstream grant whose `issued` tag is present but not numeric. -/
def upstreamX : NostrEvent :=
  { id := "x1ev", pubkey := pk64a, created_at := 500, kind := 30101,
    tags := [["d", "x1"], ["p", pk64b], ["a", srefA], ["class", "b"],
             ["issued", "x"], ["expires", "perpetual"]],
    content := "", sig := "" }

/-- Downstream grant citing `upstreamX`. -/
def childX : NostrEvent :=
  { id := "y1ev", pubkey := pk64b, created_at := 1000, kind := 30101,
    tags := [["d", "y1"], ["p", pk64c], ["a", srefA], ["class", "c"],
             ["issued", "1000"],
             ["chain", "30301:" ++ pk64a ++ ":x1"]],
    content := "", sig := "" }

def vstoreX : VStore :=
  { getCredential := fun _ => none
    findCredentialEvent := fun pk d =>
      if pk = pk64a && d = "x1" then some upstreamX else none
    getSchema := fun r => if r = srefA then some schemaValB else none }

/-- C5 counterexample.  A chain whose upstream grant carries the
non-numeric issued tag `x` verifies VALID at depth 1 — parseInt yields
NaN and the JS comparisons are skipped — yet the walked upstream does
not satisfy U.issued ≤ child.issued: its issued value parses to no
integer and the JS comparison itself is false. -/
theorem C5_nan_issued_upstream_valid :
    verify vstoreX childX 2000 = .VALID 1 ∧
    (verifyAux vstoreX childX 2000).trace = [(upstreamX, some 1000)] ∧
    jsParseInt ((getTagValue upstreamX "issued").getD "") = none ∧
    jsLeB (jsParseInt ((getTagValue upstreamX "issued").getD ""))
      (some 1000) = false := by
  decide

/-! ## Structural validation of tags (claim C9) -/

/-- 128-character signature-shaped string. -/
def sig128 : String := pk64a ++ pk64a

/-- Event whose tags field is an array but whose single element is the
string `x`, not an array; every other field is well-shaped. -/
def e9 : RawEvent :=
  { id := .jstr pk64a, pubkey := .jstr pk64a, created_at := .jnum 1000,
    kind := .jnum 1, tags := .jarr [.jstr "x"], content := .jstr "",
    sig := .jstr sig128 }

/-- C9 counterexample.  With the id computation returning the stored id
and the signature verifying (the situation the claim singles out), an
event whose tags contain a non-array element is reported valid: the
validator only checks `Array.isArray` on the outer value. -/
theorem C9_element_shape_unchecked :
    e9.tags = JVal.jarr [JVal.jstr "x"] ∧
    isArr (JVal.jstr "x") = false ∧
    validateEvent (fun _ => pk64a) (fun _ => true) e9 = .valid :=
  ⟨rfl, rfl, by decide⟩

/-- C9 amended.  validateEvent rejects with a reason whenever the tags
field itself is not an array; the elements are never inspected. -/
theorem C9_tags_outer_array_checked (computeId : RawEvent → String)
    (verifySig : RawEvent → Bool) (e : RawEvent)
    (h : isArr e.tags = false) :
    ∃ r, validateEvent computeId verifySig e = .invalid r := by
  unfold validateEvent
  repeat' split
  all_goals try exact ⟨_, rfl⟩
  all_goals simp_all

/-- Event whose tags field is the number 0. -/
def e9b : RawEvent :=
  { id := .jstr pk64a, pubkey := .jstr pk64a, created_at := .jnum 1000,
    kind := .jnum 1, tags := .jnum 0, content := .jstr "",
    sig := .jstr sig128 }

/-- Closed instance of the C9 amended theorem. -/
theorem C9_tags_outer_array_checked_witness :
    ∃ r, validateEvent (fun _ => pk64a) (fun _ => true) e9b = .invalid r :=
  C9_tags_outer_array_checked (fun _ => pk64a) (fun _ => true) e9b rfl

/-! ## Perpetual treatment of zero and non-numeric expiry (claim C10) -/

/-- Every outcome of one walk level is an INVALID, a VALID, or the
outcome of the recursive continuation. -/
theorem verifyChainStep_result_cases (st : VStore) (ipk : String) (ci : JsNum)
    (ccid : String) (ai : List String) (cr : String) (sc : CredentialSchema)
    (rpk : String) (depth : Nat)
    (recur : String → JsNum → String → List String → String → VerifyOut) :
    (∃ r, (verifyChainStep st ipk ci ccid ai cr sc rpk depth recur).result =
      .INVALID r) ∨
    (∃ dd, (verifyChainStep st ipk ci ccid ai cr sc rpk depth recur).result =
      .VALID dd) ∨
    (∃ a b c d e,
      (verifyChainStep st ipk ci ccid ai cr sc rpk depth recur).result =
        (recur a b c d e).result) := by
  unfold verifyChainStep
  by_cases hd : depth > 5
  · rw [if_pos hd]
    exact Or.inl ⟨_, rfl⟩
  rw [if_neg hd]
  cases hpa : parseATag cr with
  | none => exact Or.inl ⟨_, rfl⟩
  | some chainInfo =>
    dsimp only
    by_cases hk : chainInfo.kind ≠ 30301
    · rw [if_pos hk]
      exact Or.inl ⟨_, rfl⟩
    rw [if_neg hk]
    cases hf : st.findCredentialEvent chainInfo.pubkey chainInfo.dTag with
    | none => exact Or.inl ⟨_, rfl⟩
    | some u =>
      dsimp only
      by_cases hp : getTagValue u "p" ≠ some ipk
      · rw [if_pos hp]
        exact Or.inl ⟨_, rfl⟩
      rw [if_neg hp]
      by_cases hc1 : (!truthyS (getTagValue u "class")) = true
      · rw [if_pos hc1]
        exact Or.inl ⟨_, rfl⟩
      rw [if_neg hc1]
      by_cases hc2 : (!ai.contains ((getTagValue u "class").getD "")) = true
      · rw [if_pos hc2]
        exact Or.inl ⟨_, rfl⟩
      rw [if_neg hc2]
      cases hcd : classLookup sc ((getTagValue u "class").getD "") with
      | none => exact Or.inl ⟨_, rfl⟩
      | some issuerClassDef =>
        dsimp only
        by_cases hs : (!issuerClassDef.scope.contains ccid) = true
        · rw [if_pos hs]
          exact Or.inl ⟨_, rfl⟩
        rw [if_neg hs]
        by_cases hi : (!truthyS (getTagValue u "issued")) = true
        · rw [if_pos hi]
          exact Or.inl ⟨_, rfl⟩
        rw [if_neg hi]
        by_cases hg : jsGtB (jsParseInt ((getTagValue u "issued").getD "")) ci = true
        · rw [if_pos hg]
          exact Or.inl ⟨_, rfl⟩
        rw [if_neg hg]
        by_cases he : (match parseExpiresOpt (getTagValue u "expires") with
            | some x => jsLtB (some x) ci
            | none => false) = true
        · rw [if_pos he]
          exact Or.inl ⟨_, rfl⟩
        rw [if_neg he]
        split
        · exact Or.inl ⟨_, rfl⟩
        · split
          · exact Or.inr (Or.inl ⟨_, rfl⟩)
          · split
            · exact Or.inl ⟨_, rfl⟩
            · exact Or.inr (Or.inr ⟨_, _, _, _, _, rfl⟩)

/-- The chain walk never returns EXPIRED. -/
theorem verifyChainAux_no_expired (fuel : Nat) :
    ∀ (st : VStore) (ipk : String) (ci : JsNum) (ccid : String)
      (ai : List String) (cr : String) (sc : CredentialSchema)
      (rpk : String) (now : Int) (depth : Nat) (x : Int),
      (verifyChainAux fuel st ipk ci ccid ai cr sc rpk now depth).result ≠
        .EXPIRED x := by
  induction fuel with
  | zero =>
    intro st ipk ci ccid ai cr sc rpk now depth x hres
    simp [verifyChainAux] at hres
  | succ n ih =>
    intro st ipk ci ccid ai cr sc rpk now depth x
    rw [verifyChainAux]
    rcases verifyChainStep_result_cases st ipk ci ccid ai cr sc rpk depth
        (fun ipk2 issued2 class2 issuedBy2 chain2 =>
          verifyChainAux n st ipk2 issued2 class2 issuedBy2 chain2
            sc rpk now (depth + 1)) with ⟨r, hr⟩ | ⟨dd, hr⟩ | ⟨a, b, c, d, e, hr⟩
    · rw [hr]
      simp
    · rw [hr]
      simp
    · rw [hr]
      exact ih st a b c d e sc rpk now (depth + 1) x

/-- With a null computed expiry and no indexed expiry, verify never
takes the EXPIRED branch (and the chain walk cannot produce one). -/
theorem verifyAux_not_expired (st : VStore) (e : NostrEvent) (now : Int)
    (hparse : parseExpiresOpt (getTagValue e "expires") = none)
    (hrow : ∀ r, st.getCredential e.id = some r → r.expires_at = none) :
    ∀ x, (verifyAux st e now).result ≠ .EXPIRED x := by
  intro x
  unfold verifyAux
  dsimp only
  split
  · simp
  · split
    · simp
    · split
      · simp
      · split
        · next hlt =>
          exfalso
          rcases hcr : st.getCredential e.id with _ | r
          · rw [hcr] at hlt
            simp [hparse, jsLtB] at hlt
          · rw [hcr] at hlt
            simp [hrow r hcr, hparse, jsLtB] at hlt
        · split
          · simp
          · split
            · simp
            · split
              · simp
              · split
                · simp
                · split
                  · simp
                  · exact verifyChainAux_no_expired 6 st _ _ _ _ _ _ _ _ 1 x

/-- C10.  An `expires` tag equal to `0`, or failing to parse as a
nonzero integer, yields a null numeric expiry — `parseExpiresOpt` is
the shared computation of credentials.ts lines 35 and 165 and
database.ts line 154 — so verify never returns EXPIRED for the grant
(absent a renewal-set indexed expiry), and the expired-at-issuance
branch condition of the chain walk is false for such an upstream grant
against any downstream issued value. -/
theorem C10_nonnumeric_expiry_perpetual (e : NostrEvent) (s : String)
    (hs : getTagValue e "expires" = some s) (hnp : s ≠ "perpetual")
    (hz : jsParseInt s = none ∨ jsParseInt s = some 0) :
    parseExpiresOpt (getTagValue e "expires") = none ∧
    (∀ (st : VStore) (now : Int) (x : Int),
      (∀ r, st.getCredential e.id = some r → r.expires_at = none) →
      verify st e now ≠ .EXPIRED x) ∧
    (∀ ci : JsNum, (match parseExpiresOpt (getTagValue e "expires") with
        | some x => jsLtB (some x) ci
        | none => false) = false) := by
  have hpar : parseExpiresOpt (getTagValue e "expires") = none := by
    rw [hs]
    unfold parseExpiresOpt
    rw [if_neg (by simp [hnp])]
    rcases hz with h | h
    · simp [h]
    · simp [h]
  refine ⟨hpar, ?_, ?_⟩
  · intro st now x hrow
    unfold verify
    exact verifyAux_not_expired st e now hpar hrow x
  · intro ci
    rw [hpar]

/-- Grant whose expires tag is the literal string `0`. -/
def gZero : NostrEvent :=
  { id := "z1", pubkey := pk64b, created_at := 1000, kind := 30101,
    tags := [["d", "z1"], ["p", pk64c], ["a", srefA], ["class", "c"],
             ["issued", "1000"], ["expires", "0"]],
    content := "", sig := "" }

/-- Closed instance of C10 at the grant with `expires = 0`. -/
theorem C10_nonnumeric_expiry_perpetual_witness :
    parseExpiresOpt (getTagValue gZero "expires") = none ∧
    (∀ (st : VStore) (now : Int) (x : Int),
      (∀ r, st.getCredential gZero.id = some r → r.expires_at = none) →
      verify st gZero now ≠ .EXPIRED x) ∧
    (∀ ci : JsNum, (match parseExpiresOpt (getTagValue gZero "expires") with
        | some x => jsLtB (some x) ci
        | none => false) = false) :=
  C10_nonnumeric_expiry_perpetual gZero "0" (by decide) (by decide)
    (Or.inr (by decide))
